import Mathlib

/-!
# Verification of the realtime data-layer rendering pipeline

Shallow embedding of the core of the `fari-digital-twin-frontend`
repository: the gradient engine, legend builder and value-color lookup of
`src/lib/services/maps.ts`, the geometry normalizer, zoom scaler and
polling/fetch state machine of `src/components/RealtimeViewer.vue`, and
the wire-shape normalization of `src/api/mobilityClient.ts` and
`src/services/vehicleService.ts`.

JavaScript numbers are modelled as exact rationals (`ℚ`); the IEEE special
values `NaN`/`±Infinity`, which matter only for the division-by-zero path
of `getValueColor`, are modelled explicitly by the `JSNum` type.
`Math.round x` is `⌊x + 1/2⌋` (round half toward positive infinity),
which is the JavaScript semantics.
-/

namespace FariTwin

/-- JavaScript `Math.max` on two plain numbers. Defined by comparison so
that the kernel can evaluate it; `jmax_eq` relates it to `max`. -/
def jmax (a b : ℚ) : ℚ := if a ≤ b then b else a

/-- JavaScript `Math.min` on two plain numbers. -/
def jmin (a b : ℚ) : ℚ := if a ≤ b then a else b

/-- JavaScript `Math.floor` on a plain number. -/
def jfloor (x : ℚ) : ℤ := Rat.floor x

/-- JavaScript `Math.round`: round half toward `+∞`. -/
def jround (x : ℚ) : ℤ := jfloor (x + 1/2)

theorem jmax_eq (a b : ℚ) : jmax a b = max a b := by
  simp [jmax, max_def]

theorem jmin_eq (a b : ℚ) : jmin a b = min a b := by
  simp [jmin, min_def]

/-- JavaScript `Math.min` on two integers (used for the segment index). -/
def imin (a b : ℤ) : ℤ := if a ≤ b then a else b

theorem imin_eq (a b : ℤ) : imin a b = min a b := by
  simp [imin, min_def]

theorem jfloor_eq (x : ℚ) : jfloor x = ⌊x⌋ := rfl

theorem jround_eq (x : ℚ) : jround x = ⌊x + 1/2⌋ := rfl

/-- An RGB color with integer channels, as produced by `interpolateColor`
in `src/lib/services/maps.ts`. -/
abbrev RGB := ℤ × ℤ × ℤ

/-- `interpolateColor(color1, color2, t)` from `src/lib/services/maps.ts`:
channel-wise `Math.round(c1 + (c2 - c1) * t)`. -/
def interpolateColor (c1 c2 : RGB) (t : ℚ) : RGB :=
  (jround (c1.1 + (c2.1 - c1.1) * t),
   jround (c1.2.1 + (c2.2.1 - c1.2.1) * t),
   jround (c1.2.2 + (c2.2.2 - c1.2.2) * t))

/-- `GRADIENT_STOPS` from `src/lib/services/maps.ts`:
green → yellow → orange → red. -/
def GRADIENT_STOPS : List RGB :=
  [(0, 200, 0), (255, 255, 0), (255, 165, 0), (255, 0, 0)]

/-- Array access `GRADIENT_STOPS[i]` for an in-range natural index
(out-of-range access cannot happen on the paths that use this helper;
the faulting JS path is modelled separately by `getValueColorJS`). -/
def gradientStop (i : ℕ) : RGB := GRADIENT_STOPS.getD i (0, 0, 0)

/-- The RGB part of `getGradientColor(normalizedValue)` from
`src/lib/services/maps.ts`, for a plain (non-`NaN`, non-infinite) input:
clamp to `[0,1]`, locate the segment `min ⌊t*3⌋ 2` of the 4-stop
gradient and interpolate inside it. -/
def getGradientColorRGB (normalizedValue : ℚ) : RGB :=
  let t : ℚ := jmax 0 (jmin 1 normalizedValue)
  let segmentCount : ℤ := (GRADIENT_STOPS.length : ℤ) - 1
  let segment : ℤ := imin (jfloor (t * segmentCount)) (segmentCount - 1)
  let localT : ℚ := t * segmentCount - segment
  interpolateColor (gradientStop segment.toNat) (gradientStop (segment.toNat + 1)) localT

/-- `getZoomAdjustedSize(baseSize)` from
`src/components/RealtimeViewer.vue`, with the `currentZoom` ref made an
explicit argument: clamp zoom into `[8,18]`, linearly interpolate a scale
into `[0.3,1.5]`, multiply and `Math.round`. -/
def getZoomAdjustedSize (currentZoom baseSize : ℚ) : ℤ :=
  let minZoom : ℚ := 8
  let maxZoom : ℚ := 18
  let minScale : ℚ := 3/10
  let maxScale : ℚ := 3/2
  let zoom : ℚ := jmax minZoom (jmin maxZoom currentZoom)
  let scale : ℚ := minScale + ((zoom - minZoom) / (maxZoom - minZoom)) * (maxScale - minScale)
  jround (baseSize * scale)

/-- The segment of the 4-stop gradient containing normalized value `t`,
as computed by `getGradientColor`: `min ⌊t*3⌋ 2`. -/
def gradientSegment (t : ℚ) : ℕ := (imin (jfloor (t * 3)) 2).toNat

/-- Channel `x` lies between the corresponding channels of the two stops. -/
def between (lo hi x : ℤ) : Prop := min lo hi ≤ x ∧ x ≤ max lo hi

/-- Every channel of `getGradientColorRGB t` lies within the min/max of
the two stops bounding `t`'s segment. -/
def channelsWithinStops (t : ℚ) : Prop :=
  between (gradientStop (gradientSegment t)).1 (gradientStop (gradientSegment t + 1)).1
    (getGradientColorRGB t).1 ∧
  between (gradientStop (gradientSegment t)).2.1 (gradientStop (gradientSegment t + 1)).2.1
    (getGradientColorRGB t).2.1 ∧
  between (gradientStop (gradientSegment t)).2.2 (gradientStop (gradientSegment t + 1)).2.2
    (getGradientColorRGB t).2.2

/-- A legend entry, `LegendItem` from `src/lib/layerStyles.ts`:
a CSS hex color and a text label. -/
structure LegendItem where
  color : String
  label : String
deriving DecidableEq, Repr

/-- The `{ title, items }` record returned by `createGradientLegend`. -/
structure GradientLegend where
  title : String
  items : List LegendItem
deriving DecidableEq, Repr

/-- One channel of `rgbToHex`: JavaScript
`x.toString(16).padStart(2, '0')` (lowercase hex digits). -/
def toHexByte (x : ℤ) : String :=
  let s := if x < 0 then "-" ++ String.mk (Nat.toDigits 16 x.natAbs)
           else String.mk (Nat.toDigits 16 x.toNat)
  if s.length < 2 then "0" ++ s else s

/-- `rgbToHex(r, g, b)` from `src/lib/services/maps.ts`. -/
def rgbToHex (r g b : ℤ) : String :=
  "#" ++ toHexByte r ++ toHexByte g ++ toHexByte b

/-- `createGradientLegend(title, min, max, steps, unit)` from
`src/lib/services/maps.ts`. The loop `for i in 0..steps-1` is the map over
`List.range steps`. For `steps = 1` the JS code divides `0/0 = NaN` and
faults in the stop lookup; this embedding (where `0/0 = 0` in `ℚ`) is
faithful on `steps ≥ 2`, the domain the claims quantify over. -/
def createGradientLegend (title : String) (mn mx : ℚ) (steps : ℕ) (unit : String) :
    GradientLegend :=
  let range := mx - mn
  { title := title
    items := (List.range steps).map fun (i : ℕ) =>
      let normalizedValue : ℚ := (i : ℚ) / ((steps : ℚ) - 1)
      let color := getGradientColorRGB normalizedValue
      let valueStart : ℚ := mn + range * (i : ℚ) / ((steps : ℚ) - 1)
      let valueEnd : ℚ :=
        if i < steps - 1 then mn + range * ((i : ℚ) + 1) / ((steps : ℚ) - 1) else mx
      let label :=
        if i = 0 then "≤ " ++ toString (jround valueEnd) ++ unit
        else if i = steps - 1 then "> " ++ toString (jround valueStart) ++ unit
        else toString (jround valueStart) ++ " - " ++ toString (jround valueEnd) ++ unit
      { color := rgbToHex color.1 color.2.1 color.2.2, label := label } }

/-- A JavaScript number: a finite value (exact rational) or one of the
IEEE special values `NaN`, `+Infinity`, `-Infinity`. The special values
arise here only from `getValueColor`'s division. -/
inductive JSNum where
  | nan
  | posInf
  | negInf
  | num (q : ℚ)
deriving DecidableEq, Repr

/-- JS division of two finite operands: `x / 0` is `NaN` when `x = 0` and
`±Infinity` otherwise. -/
def jsDiv (x y : ℚ) : JSNum :=
  if y = 0 then (if x = 0 then .nan else if 0 < x then .posInf else .negInf)
  else .num (x / y)

/-- JS `Math.min` on possibly-special numbers: `NaN` propagates. -/
def jsMinNum : JSNum → JSNum → JSNum
  | .nan, _ => .nan
  | _, .nan => .nan
  | .negInf, _ => .negInf
  | _, .negInf => .negInf
  | .posInf, b => b
  | a, .posInf => a
  | .num x, .num y => .num (jmin x y)

/-- JS `Math.max` on possibly-special numbers: `NaN` propagates. -/
def jsMaxNum : JSNum → JSNum → JSNum
  | .nan, _ => .nan
  | _, .nan => .nan
  | .posInf, _ => .posInf
  | _, .posInf => .posInf
  | .negInf, b => b
  | a, .negInf => a
  | .num x, .num y => .num (jmax x y)

/-- JS `Math.floor` on possibly-special numbers. -/
def jsFloorNum : JSNum → JSNum
  | .num q => .num ((jfloor q : ℤ) : ℚ)
  | s => s

/-- JS multiplication of a possibly-special number by a finite constant. -/
def jsMulNum : JSNum → ℚ → JSNum
  | .num q, k => .num (q * k)
  | .nan, _ => .nan
  | .posInf, k => if k = 0 then .nan else if 0 < k then .posInf else .negInf
  | .negInf, k => if k = 0 then .nan else if 0 < k then .negInf else .posInf

/-- JS `x + 1` on a possibly-special number. -/
def jsAddOne : JSNum → JSNum
  | .num q => .num (q + 1)
  | s => s

/-- The JS array read `GRADIENT_STOPS[i]` for a number index: an element
when the index is a non-negative in-bounds integer, `undefined` (here
`none`) otherwise — in particular for index `NaN`. -/
def stopsAt : JSNum → Option RGB
  | .num q => if q.den = 1 ∧ 0 ≤ q.num then GRADIENT_STOPS[q.num.toNat]? else none
  | _ => none

/-- The `[r,g,b]` or `[r,g,b,alpha]` array returned by
`getGradientColor` / `getValueColor`. -/
inductive JSColor where
  | rgb (c : RGB)
  | rgba (c : RGB) (a : ℚ)
deriving DecidableEq, Repr

/-- Appending the optional alpha channel, as `getGradientColor` does. -/
def withAlpha (alpha : Option ℚ) (c : RGB) : JSColor :=
  match alpha with
  | some a => .rgba c a
  | none => .rgb c

/-- `getGradientColor(normalizedValue, alpha?)` from
`src/lib/services/maps.ts` with full JS-number semantics. `none` models
the TypeError thrown when the stop lookup returns `undefined` (which
happens exactly when the segment index is `NaN`) and
`interpolateColor` then reads `color1[0]` of `undefined`. -/
def getGradientColorJS (normalizedValue : JSNum) (alpha : Option ℚ) : Option JSColor :=
  let t := jsMaxNum (.num 0) (jsMinNum (.num 1) normalizedValue)
  let segmentCount : ℚ := (GRADIENT_STOPS.length : ℚ) - 1
  let segment := jsMinNum (jsFloorNum (jsMulNum t segmentCount)) (.num (segmentCount - 1))
  match stopsAt segment, stopsAt (jsAddOne segment), t, segment with
  | some c1, some c2, .num tq, .num sq =>
      some (withAlpha alpha (interpolateColor c1 c2 (tq * segmentCount - sq)))
  | _, _, _, _ => none

/-- `getValueColor(value, min, max, alpha?)` from
`src/lib/services/maps.ts`: normalize by `(value-min)/(max-min)` (JS
division) and color by the gradient. -/
def getValueColorJS (value mn mx : ℚ) (alpha : Option ℚ) : Option JSColor :=
  getGradientColorJS (jsDiv (value - mn) (mx - mn)) alpha

/-- All three channels lie in `[0, 255]`. -/
def colorInRange (c : RGB) : Prop :=
  0 ≤ c.1 ∧ c.1 ≤ 255 ∧ 0 ≤ c.2.1 ∧ c.2.1 ≤ 255 ∧ 0 ≤ c.2.2 ∧ c.2.2 ≤ 255

/-- A JSON coordinate element as received from the wire: a string, a
JS number (possibly `NaN`/`Infinity`), or any other JSON value
(null, boolean, object), abstracted by a tag. -/
inductive CoordVal where
  | str (s : String)
  | num (n : JSNum)
  | other (tag : String)
deriving DecidableEq, Repr

/-- The numeric value of a digit string, most significant first. -/
def digitsVal (cs : List Char) : ℕ := cs.foldl (fun a c => a * 10 + (c.toNat - 48)) 0

/-- A JS whitespace character (the common ones). -/
def isSpaceChar (c : Char) : Bool := c == ' ' || c == '\t' || c == '\n' || c == '\r'

/-- The optional exponent part of a JS float literal: `[+|-]digits`,
0 when no digits follow. -/
def parseExp (cs : List Char) : ℤ :=
  let eneg : Bool := cs.head? == some '-'
  let signed : Bool := eneg || (cs.head? == some '+')
  let cs1 := if signed then cs.tail else cs
  let ed := cs1.takeWhile Char.isDigit
  if ed.isEmpty then 0 else (if eneg then -1 else 1) * (digitsVal ed : ℤ)

/-- Model of the JavaScript builtin `parseFloat` on the character list:
skip leading whitespace, optional sign, then either `Infinity` or a
decimal literal `digits[.digits][(e|E)[sign]digits]`; `NaN` when no
digits can be read; trailing garbage is ignored. Values are kept as
exact rationals rather than rounded to binary64. -/
def parseFloatAux (cs0 : List Char) : JSNum :=
  let cs1 := cs0.dropWhile isSpaceChar
  let neg : Bool := cs1.head? == some '-'
  let signed : Bool := neg || (cs1.head? == some '+')
  let cs := if signed then cs1.tail else cs1
  if cs.take 8 = "Infinity".data then
    if neg then .negInf else .posInf
  else
    let ip := cs.takeWhile Char.isDigit
    let cs2 := cs.dropWhile Char.isDigit
    let dot : Bool := cs2.head? == some '.'
    let fp := if dot then cs2.tail.takeWhile Char.isDigit else []
    let cs3 := if dot then cs2.tail.dropWhile Char.isDigit else cs2
    if ip.isEmpty && fp.isEmpty then .nan
    else
      let expChars := if cs3.head? == some 'e' || cs3.head? == some 'E' then cs3.tail else []
      let sgn : ℚ := if neg then -1 else 1
      .num (sgn * ((digitsVal ip : ℚ) + (digitsVal fp : ℚ) / (10 : ℚ) ^ fp.length) *
        (10 : ℚ) ^ parseExp expChars)

/-- JavaScript `parseFloat`, as applied by `normalizeGeoJSON` to string
coordinates. -/
def parseFloat (s : String) : JSNum := parseFloatAux s.data

/-- The `geometry` of a feature: a type tag and the coordinates array. -/
structure Geometry where
  gtype : String
  coordinates : List CoordVal
deriving DecidableEq, Repr

/-- A GeoJSON feature as handled by `normalizeGeoJSON`; properties are
kept abstract as a key-value list. -/
structure Feature where
  properties : List (String × String)
  geometry : Geometry
deriving DecidableEq, Repr

/-- A GeoJSON feature collection. -/
structure GeoJSONFeatureCollection where
  ftype : String
  features : List Feature
deriving DecidableEq, Repr

/-- The coordinate coercion inside `normalizeGeoJSON`:
`typeof coord === 'string' ? parseFloat(coord) : coord`. -/
def normalizeCoord : CoordVal → CoordVal
  | .str s => .num (parseFloat s)
  | c => c

/-- The per-feature step of `normalizeGeoJSON`: rebuild the feature with
every coordinate element coerced. -/
def normalizeFeature (f : Feature) : Feature :=
  { f with geometry := { f.geometry with
      coordinates := f.geometry.coordinates.map normalizeCoord } }

/-- `normalizeGeoJSON(data)` from `src/components/RealtimeViewer.vue`. -/
def normalizeGeoJSON (data : GeoJSONFeatureCollection) : GeoJSONFeatureCollection :=
  { data with features := data.features.map normalizeFeature }

/-- Is this coordinate element a string? -/
def isStringCoord : CoordVal → Bool
  | .str _ => true
  | _ => false

/-- Is this coordinate element a finite number (neither a string, nor
`NaN`/`±Infinity`, nor a non-numeric value)? -/
def isFiniteNumCoord : CoordVal → Bool
  | .num (.num _) => true
  | _ => false

/-- A feature collection whose single feature carries a coordinate string
that does not parse as a number. -/
def fcBad : GeoJSONFeatureCollection :=
  ⟨"FeatureCollection", [⟨[], ⟨"Point", [CoordVal.str "abc"]⟩⟩]⟩

/-- Scenario A's input: one feature whose coordinates are the numeric
strings `"4.35"` and `"50.85"`. -/
def fcA : GeoJSONFeatureCollection :=
  ⟨"FeatureCollection", [⟨[], ⟨"Point", [CoordVal.str "4.35", CoordVal.str "50.85"]⟩⟩]⟩

/-- A wire response of the external mobility feed, as the shape-sniffing
in `fetchMobilityData` distinguishes it: the vendor envelope — the only
shape carrying a `status_code` field — an object that is already a
FeatureCollection, a bare array of features, or any other JSON value
(abstracted by a tag, with no `status_code` field). -/
inductive MobilityResponse where
  | envelope (status_code : ℤ) (message : String) (rtype : String) (features : List Feature)
  | collection (fc : GeoJSONFeatureCollection)
  | bareArray (features : List Feature)
  | other (tag : String)
deriving DecidableEq, Repr

/-- The JS test `'status_code' in response`. -/
def hasStatusCode : MobilityResponse → Bool
  | .envelope .. => true
  | _ => false

/-- The response-normalization step of `fetchMobilityData` in
`src/api/mobilityClient.ts`: `if ('status_code' in response)` unwrap the
envelope to `{type: 'FeatureCollection', features}`; otherwise return the
response unchanged. The function has no other branch: bare arrays and
unrecognized shapes pass through, and no error is raised for them. -/
def normalizeMobilityResponse : MobilityResponse → MobilityResponse
  | .envelope _ _ _ fs => .collection ⟨"FeatureCollection", fs⟩
  | r => r

/-- A wire response as `VehicleService.fetchVehiclePositions` probes it:
an array, an object with a `features` field (possibly null), or any other
value. -/
inductive VehicleResponse where
  | arr (features : List Feature)
  | coll (vtype : String) (features : Option (List Feature))
  | other (tag : String)
deriving DecidableEq, Repr

/-- The extraction step of `VehicleService.fetchVehiclePositions` in
`src/services/vehicleService.ts`: `Array.isArray(data)` → the array
itself; `'features' in data` → `data.features || []`; otherwise the
initial `[]`. -/
def extractVehicleData : VehicleResponse → List Feature
  | .arr fs => fs
  | .coll _ fs => fs.getD []
  | .other _ => []

/-- The keys of `MobilityEndpoints` in `src/api/mobilityClient.ts`. -/
def MobilityEndpointKeys : List String := ["stib", "sncb", "bolt", "dott", "telraam"]

/-- The keys of `ComponentEndpoints` in `src/api/queries/components.ts`. -/
def ComponentEndpointKeys : List String := ["sensorCommunity", "openSky"]

/-- The source type resolved by `getSourceType` in
`src/components/RealtimeViewer.vue`. -/
inductive SourceType where
  | mobility
  | component
  | unknown
deriving DecidableEq, Repr

/-- `getSourceType(id)` from `src/components/RealtimeViewer.vue`:
`id in MobilityEndpoints`, then `id in ComponentEndpoints`, else
unknown. -/
def getSourceType (id : String) : SourceType :=
  if id ∈ MobilityEndpointKeys then .mobility
  else if id ∈ ComponentEndpointKeys then .component
  else .unknown

/-- The observable state of `RealtimeViewer.vue`'s polling/fetch
lifecycle: the `props.dataset` id, the `pollInterval` ref (which keeps a
stale id after `clearInterval`), the set of interval timers the browser
still fires, the fresh-id counters, the in-flight fetches tagged with the
dataset id captured when `fetchData` started, the `geojsonData` ref
tagged with the dataset whose fetch produced it, and the `currentStyle`,
`error` and `loading` refs. -/
structure ViewerState where
  activeDataset : Option String
  pollRef : Option ℕ
  liveTimers : List ℕ
  nextTimer : ℕ
  pending : List (ℕ × String)
  nextFetch : ℕ
  displayed : Option (String × GeoJSONFeatureCollection)
  styleKey : Option String
  errorMsg : Option String
  loading : Bool
deriving DecidableEq, Repr

/-- The component's state on mount: no dataset, no timer (browser timer
ids start at 1), nothing displayed. -/
def initViewer : ViewerState :=
  ⟨none, none, [], 1, [], 0, none, none, none, false⟩

/-- The two ways a fetch's network promise can settle. -/
inductive FetchOutcome where
  | success (data : GeoJSONFeatureCollection)
  | failure (reason : String)
deriving DecidableEq, Repr

/-- The synchronous prefix of `fetchData` in
`src/components/RealtimeViewer.vue` (lines 107–131): bail out when no
dataset is set; set `loading`, clear `error`, resolve the style from the
dataset id; an unknown source throws, which the surrounding catch turns
into the displayed error string (`finally` clears `loading`); otherwise
an in-flight fetch is recorded, tagged with the dataset id read from
`props.dataset` at call time. -/
def fetchStart (s : ViewerState) : ViewerState :=
  match s.activeDataset with
  | none => s
  | some ds =>
    let s1 := { s with loading := true, errorMsg := none, styleKey := some ds }
    if getSourceType ds = .unknown then
      { s1 with errorMsg := some "Failed to fetch realtime data", loading := false }
    else
      { s1 with pending := s1.pending ++ [(s1.nextFetch, ds)], nextFetch := s1.nextFetch + 1 }

/-- The awaited body of a poll cycle: a fulfilled promise yields the
normalized FeatureCollection, a rejection is an error. -/
def fetchBody : FetchOutcome → Except String GeoJSONFeatureCollection
  | .success data => .ok (normalizeGeoJSON data)
  | .failure reason => .error reason

/-- Settlement of in-flight fetch `fid` (the rest of `fetchData`,
lines 132–139): on success `geojsonData.value` is set to the normalized
response of the dataset the fetch was started for — with no staleness
check against the currently active dataset — and the catch converts any
error to the displayed string `'Failed to fetch realtime data'`;
`finally` clears `loading`. The timers are never touched. -/
def fetchResolve (s : ViewerState) (fid : ℕ) (out : FetchOutcome) : ViewerState :=
  match s.pending.lookup fid with
  | none => s
  | some ds =>
    let s1 := { s with pending := s.pending.filter fun p => p.1 != fid }
    match fetchBody out with
    | .ok data => { s1 with displayed := some (ds, data), loading := false }
    | .error _ =>
      { s1 with errorMsg := some "Failed to fetch realtime data", loading := false }

/-- The events driving the viewer: the `watch(() => props.dataset)`
handler (activation, switch or deactivation), a tick of an interval
timer, the settlement of an in-flight fetch, and `onUnmounted`. -/
inductive Event where
  | switchDataset (d : Option String)
  | timerTick (t : ℕ)
  | resolve (fid : ℕ) (out : FetchOutcome)
  | unmount
deriving DecidableEq, Repr

/-- One step of the viewer. The watch handler (lines 223–232) first runs
`if (pollInterval.value) clearInterval(pollInterval.value)` — the ref is
not nulled, so it may keep a dead id — then clears `geojsonData`, and
when a dataset is present calls `fetchData()` and schedules a new 20s
interval. `onUnmounted` (lines 265–269) clears the interval. Only live
timers tick, and a tick runs `fetchData` against the current dataset. -/
def step (s : ViewerState) (e : Event) : ViewerState :=
  match e with
  | .switchDataset d =>
    let s1 := { s with activeDataset := d }
    let s2 := match s1.pollRef with
      | some p => { s1 with liveTimers := s1.liveTimers.erase p }
      | none => s1
    let s3 := { s2 with displayed := none }
    match d with
    | some _ =>
      let s4 := fetchStart s3
      { s4 with
          pollRef := some s4.nextTimer
          liveTimers := s4.liveTimers ++ [s4.nextTimer]
          nextTimer := s4.nextTimer + 1 }
    | none => s3
  | .timerTick t => if t ∈ s.liveTimers then fetchStart s else s
  | .resolve fid out => fetchResolve s fid out
  | .unmount =>
    match s.pollRef with
    | some p => { s with liveTimers := s.liveTimers.erase p }
    | none => s

/-- The state reached from mount after a sequence of events. -/
def run (evs : List Event) : ViewerState := evs.foldl step initViewer

/-- There is at most one live interval timer, and it is the one the
`pollInterval` ref points to. -/
def PollInv (s : ViewerState) : Prop :=
  match s.pollRef with
  | none => s.liveTimers = []
  | some p => s.liveTimers = [] ∨ s.liveTimers = [p]

/-- An empty feature collection used as a concrete fetch payload. -/
def fcEmpty : GeoJSONFeatureCollection := ⟨"FeatureCollection", []⟩

/-- Two dataset switches in rapid succession, after which the second
dataset's fetch resolves first and the first dataset's stale fetch
resolves last. -/
def raceTrace : List Event :=
  [.switchDataset (some "stib"), .switchDataset (some "sncb"),
   .resolve 1 (.success fcEmpty), .resolve 0 (.success fcEmpty)]

/-- The closed-form characterization of legend item `i` (for
`2 ≤ steps`): color at the normalized boundary position `i/(steps-1)`,
band boundaries at `mn + (mx-mn)·i/(steps-1)`, labels using the `≤`, `-`
and `>` conventions with bounds rounded to integers. -/
def legendItemSpec (mn mx : ℚ) (steps : ℕ) (unit : String) (i : ℕ) : LegendItem :=
  let c := getGradientColorRGB ((i : ℚ) / ((steps : ℚ) - 1))
  let bStart : ℚ := mn + (mx - mn) * (i : ℚ) / ((steps : ℚ) - 1)
  let bEnd : ℚ := mn + (mx - mn) * ((i : ℚ) + 1) / ((steps : ℚ) - 1)
  { color := rgbToHex c.1 c.2.1 c.2.2
    label :=
      if i = 0 then "≤ " ++ toString (jround bEnd) ++ unit
      else if i = steps - 1 then "> " ++ toString (jround bStart) ++ unit
      else toString (jround bStart) ++ " - " ++ toString (jround bEnd) ++ unit }

theorem gradientStop_zero : gradientStop 0 = (0, 200, 0) := rfl

theorem gradientStop_one : gradientStop 1 = (255, 255, 0) := rfl

theorem gradientStop_two : gradientStop 2 = (255, 165, 0) := rfl

theorem gradientStop_three : gradientStop 3 = (255, 0, 0) := rfl

theorem le_jround_of_le (a : ℤ) (x : ℚ) (h : (a : ℚ) ≤ x) : a ≤ jround x := by
  rw [jround, jfloor_eq]
  exact Int.le_floor.mpr (by linarith)

theorem jround_le_of_le (b : ℤ) (x : ℚ) (h : x ≤ (b : ℚ)) : jround x ≤ b := by
  rw [jround, jfloor_eq]
  have hlt : ⌊x + 1/2⌋ < b + 1 := Int.floor_lt.mpr (by push_cast; linarith)
  omega

theorem jround_mono {x y : ℚ} (h : x ≤ y) : jround x ≤ jround y := by
  rw [jround, jround, jfloor_eq, jfloor_eq]
  exact Int.floor_le_floor (by linarith)

/-- A rounded linear interpolation with parameter in `[0,1]` stays between
its two endpoints. -/
theorem between_jround_lerp (a b : ℤ) (s : ℚ) (h0 : 0 ≤ s) (h1 : s ≤ 1) :
    between a b (jround ((a : ℚ) + ((b : ℚ) - (a : ℚ)) * s)) := by
  have hmin : ((min a b : ℤ) : ℚ) ≤ (a : ℚ) + ((b : ℚ) - (a : ℚ)) * s := by
    rcases le_total a b with hab | hab
    · rw [min_eq_left hab]
      have : (a : ℚ) ≤ (b : ℚ) := by exact_mod_cast hab
      nlinarith
    · rw [min_eq_right hab]
      have : (b : ℚ) ≤ (a : ℚ) := by exact_mod_cast hab
      nlinarith
  have hmax : (a : ℚ) + ((b : ℚ) - (a : ℚ)) * s ≤ ((max a b : ℤ) : ℚ) := by
    rcases le_total a b with hab | hab
    · rw [max_eq_right hab]
      have : (a : ℚ) ≤ (b : ℚ) := by exact_mod_cast hab
      nlinarith
    · rw [max_eq_left hab]
      have : (b : ℚ) ≤ (a : ℚ) := by exact_mod_cast hab
      nlinarith
  exact ⟨le_jround_of_le _ _ hmin, jround_le_of_le _ _ hmax⟩

/-- For a clamp-free input, `getGradientColorRGB` is the in-segment
interpolation. -/
theorem getGradientColorRGB_eq (t : ℚ) (h0 : 0 ≤ t) (h1 : t ≤ 1) :
    getGradientColorRGB t =
      interpolateColor (gradientStop (gradientSegment t))
        (gradientStop (gradientSegment t + 1))
        (t * 3 - ((imin (jfloor (t * 3)) 2 : ℤ) : ℚ)) := by
  unfold getGradientColorRGB gradientSegment
  rw [jmin_eq, jmax_eq, min_eq_right h1, max_eq_right h0]
  norm_num [GRADIENT_STOPS]

theorem gradientSegment_localT_nonneg (t : ℚ) :
    0 ≤ t * 3 - ((imin (jfloor (t * 3)) 2 : ℤ) : ℚ) := by
  rw [imin_eq, jfloor_eq]
  have h1 : ((min ⌊t * 3⌋ 2 : ℤ) : ℚ) ≤ ((⌊t * 3⌋ : ℤ) : ℚ) := by
    exact_mod_cast min_le_left _ _
  have h2 : ((⌊t * 3⌋ : ℤ) : ℚ) ≤ t * 3 := Int.floor_le _
  linarith

theorem gradientSegment_localT_le_one (t : ℚ) (h1 : t ≤ 1) :
    t * 3 - ((imin (jfloor (t * 3)) 2 : ℤ) : ℚ) ≤ 1 := by
  rw [imin_eq, jfloor_eq]
  rcases le_total ⌊t * 3⌋ 2 with hn | hn
  · rw [min_eq_left hn]
    have := Int.lt_floor_add_one (t * 3)
    push_cast at this ⊢
    linarith
  · rw [min_eq_right hn]
    push_cast
    linarith


theorem getGradientColorRGB_zero : getGradientColorRGB 0 = (0, 200, 0) := by
  rw [getGradientColorRGB_eq 0 (by norm_num) (by norm_num)]
  have hseg : gradientSegment 0 = 0 := by
    norm_num [gradientSegment, imin, jfloor, Rat.floor_def']
  have himin : imin (jfloor ((0 : ℚ) * 3)) 2 = 0 := by
    have h3 : jfloor ((0 : ℚ) * 3) = 0 := by norm_num [jfloor, Rat.floor_def']
    rw [h3]; decide
  rw [hseg, himin, zero_add, gradientStop_zero, gradientStop_one, interpolateColor]
  norm_num [jround, jfloor, Rat.floor_def']

theorem getGradientColorRGB_one : getGradientColorRGB 1 = (255, 0, 0) := by
  rw [getGradientColorRGB_eq 1 (by norm_num) (by norm_num)]
  have h3 : jfloor ((1 : ℚ) * 3) = 3 := by norm_num [jfloor, Rat.floor_def']
  have hseg : gradientSegment 1 = 2 := by rw [gradientSegment, h3]; decide
  have himin : imin (jfloor ((1 : ℚ) * 3)) 2 = 2 := by rw [h3]; decide
  rw [hseg, himin, gradientStop_two, gradientStop_three, interpolateColor]
  norm_num [jround, jfloor, Rat.floor_def']

theorem getGradientColorRGB_third : getGradientColorRGB (1/3) = (255, 255, 0) := by
  rw [getGradientColorRGB_eq (1/3) (by norm_num) (by norm_num)]
  have h3 : jfloor ((1/3 : ℚ) * 3) = 1 := by norm_num [jfloor, Rat.floor_def']
  have hseg : gradientSegment (1/3) = 1 := by rw [gradientSegment, h3]; decide
  have himin : imin (jfloor ((1/3 : ℚ) * 3)) 2 = 1 := by rw [h3]; decide
  rw [hseg, himin, gradientStop_one, gradientStop_two, interpolateColor]
  norm_num [jround, jfloor, Rat.floor_def']

theorem getGradientColorRGB_twoThirds : getGradientColorRGB (2/3) = (255, 165, 0) := by
  rw [getGradientColorRGB_eq (2/3) (by norm_num) (by norm_num)]
  have h3 : jfloor ((2/3 : ℚ) * 3) = 2 := by norm_num [jfloor, Rat.floor_def']
  have hseg : gradientSegment (2/3) = 2 := by rw [gradientSegment, h3]; decide
  have himin : imin (jfloor ((2/3 : ℚ) * 3)) 2 = 2 := by rw [h3]; decide
  rw [hseg, himin, gradientStop_two, gradientStop_three, interpolateColor]
  norm_num [jround, jfloor, Rat.floor_def']

theorem getGradientColorRGB_eighth : getGradientColorRGB (1/8) = (96, 221, 0) := by
  rw [getGradientColorRGB_eq (1/8) (by norm_num) (by norm_num)]
  have h3 : jfloor ((1/8 : ℚ) * 3) = 0 := by norm_num [jfloor, Rat.floor_def']
  have hseg : gradientSegment (1/8) = 0 := by rw [gradientSegment, h3]; decide
  have himin : imin (jfloor ((1/8 : ℚ) * 3)) 2 = 0 := by rw [h3]; decide
  rw [hseg, himin, zero_add, gradientStop_zero, gradientStop_one, interpolateColor]
  norm_num [jround, jfloor, Rat.floor_def']

theorem channelsWithinStops_of_mem (t : ℚ) (h0 : 0 ≤ t) (h1 : t ≤ 1) :
    channelsWithinStops t := by
  have hloc0 := gradientSegment_localT_nonneg t
  have hloc1 := gradientSegment_localT_le_one t h1
  rw [channelsWithinStops, getGradientColorRGB_eq t h0 h1, interpolateColor]
  exact ⟨between_jround_lerp _ _ _ hloc0 hloc1,
         between_jround_lerp _ _ _ hloc0 hloc1,
         between_jround_lerp _ _ _ hloc0 hloc1⟩

/-- C5. For every normalized `t ∈ [0,1]`, each channel of the gradient
color lies within the min/max of the two stops bounding `t`'s segment of
the 4-stop gradient green → yellow → orange → red; at `t = 0` the result
is exactly the first stop `(0,200,0)` and at `t = 1` exactly the last
stop `(255,0,0)`. -/
theorem gradientColor_bounded_and_exact_endpoints :
    (∀ t : ℚ, 0 ≤ t → t ≤ 1 → channelsWithinStops t) ∧
    getGradientColorRGB 0 = (0, 200, 0) ∧
    getGradientColorRGB 1 = (255, 0, 0) :=
  ⟨channelsWithinStops_of_mem, getGradientColorRGB_zero, getGradientColorRGB_one⟩

/-- Witness for C5 at `t = 1/2`. -/
theorem gradientColor_bounded_and_exact_endpoints_witness :
    ((0 : ℚ) ≤ 1/2 ∧ (1/2 : ℚ) ≤ 1) ∧ channelsWithinStops (1/2) :=
  ⟨⟨by norm_num, by norm_num⟩,
   gradientColor_bounded_and_exact_endpoints.1 (1/2) (by norm_num) (by norm_num)⟩

/-- C7 counterexample: for the negative base size `-40`, the rendered
size strictly decreases from zoom 8 to zoom 18, so `scale(zoom, baseSize)`
is not monotone non-decreasing in zoom for every fixed `baseSize`. -/
theorem getZoomAdjustedSize_not_monotone_for_negative_base :
    (8 : ℚ) < 18 ∧
    getZoomAdjustedSize 8 (-40) = -12 ∧
    getZoomAdjustedSize 18 (-40) = -60 ∧
    ¬ getZoomAdjustedSize 8 (-40) ≤ getZoomAdjustedSize 18 (-40) := by
  refine ⟨by norm_num, ?_, ?_, ?_⟩ <;>
    · simp only [getZoomAdjustedSize, jmax, jmin, jround, jfloor, Rat.floor_def']
      norm_num

/-- C7 (amended). For every `baseSize ≥ 0`, `getZoomAdjustedSize` is
monotone non-decreasing in zoom, and the two clamp endpoints for base 40
differ by the configured 5× scale-range ratio. -/
theorem getZoomAdjustedSize_monotone_and_ratio :
    (∀ baseSize z1 z2 : ℚ, 0 ≤ baseSize → z1 ≤ z2 →
      getZoomAdjustedSize z1 baseSize ≤ getZoomAdjustedSize z2 baseSize) ∧
    getZoomAdjustedSize 18 40 = 5 * getZoomAdjustedSize 8 40 := by
  constructor
  · intro baseSize z1 z2 hb h12
    simp only [getZoomAdjustedSize]
    rw [jmax_eq, jmax_eq, jmin_eq, jmin_eq]
    apply jround_mono
    apply mul_le_mul_of_nonneg_left _ hb
    have hz : max 8 (min 18 z1) ≤ max 8 (min 18 z2) :=
      max_le_max le_rfl (min_le_min le_rfl h12)
    have h8 : (8 : ℚ) ≤ max 8 (min 18 z1) := le_max_left _ _
    linarith
  · simp only [getZoomAdjustedSize, jmax, jmin, jround, jfloor, Rat.floor_def']
    norm_num

/-- Witness for C7's amended monotonicity at base 40, zooms 8 ≤ 18. -/
theorem getZoomAdjustedSize_monotone_and_ratio_witness :
    ((0 : ℚ) ≤ 40 ∧ (8 : ℚ) ≤ 18) ∧
    getZoomAdjustedSize 8 40 ≤ getZoomAdjustedSize 18 40 :=
  ⟨⟨by norm_num, by norm_num⟩,
   getZoomAdjustedSize_monotone_and_ratio.1 40 8 18 (by norm_num) (by norm_num)⟩

theorem jround_500_thirds : jround (500/3 : ℚ) = 167 := by
  norm_num [jround, jfloor, Rat.floor_def']

theorem jround_1000_thirds : jround (1000/3 : ℚ) = 333 := by
  norm_num [jround, jfloor, Rat.floor_def']

theorem jround_500 : jround (500 : ℚ) = 500 := by
  norm_num [jround, jfloor, Rat.floor_def']

/-- Full evaluation of scenario C's legend `legend('Traffic', 0, 500, 4)`. -/
theorem legend_traffic_eval :
    createGradientLegend "Traffic" 0 500 4 "" =
      { title := "Traffic",
        items := [⟨"#00c800", "≤ 167"⟩, ⟨"#ffff00", "167 - 333"⟩,
                  ⟨"#ffa500", "333 - 500"⟩, ⟨"#ff0000", "> 500"⟩] } := by
  have hr : List.range 4 = [0, 1, 2, 3] := by decide
  simp only [createGradientLegend, hr, List.map_cons, List.map_nil]
  norm_num [GradientLegend.mk.injEq, LegendItem.mk.injEq]
  rw [getGradientColorRGB_zero, getGradientColorRGB_third, getGradientColorRGB_twoThirds,
    getGradientColorRGB_one, jround_500_thirds, jround_1000_thirds, jround_500]
  refine ⟨⟨by decide, by decide⟩, ⟨by decide, by decide⟩, ⟨by decide, by decide⟩,
    by decide, by decide⟩

/-- C6 counterexample: in `legend('Traffic', 0, 500, 4)`, the first item's
color is the gradient color at the band *boundary* `t = 0`, not at the
midpoint of the first of 4 equal bands of `[0,500]` (which is 62.5,
normalized `1/8`, color `#60dd00`); likewise the first label's bound is
167 = round(500/3), not 125, the end of the first of 4 equal bands. -/
theorem createGradientLegend_not_band_midpoints :
    ((createGradientLegend "Traffic" 0 500 4 "").items.map LegendItem.color).head? =
      some "#00c800" ∧
    getGradientColorRGB (((0 : ℚ) + (500 - 0) / 4 / 2) / 500) = (96, 221, 0) ∧
    rgbToHex 96 221 0 = "#60dd00" ∧
    ("#00c800" : String) ≠ "#60dd00" ∧
    ((createGradientLegend "Traffic" 0 500 4 "").items.map LegendItem.label).head? =
      some "≤ 167" ∧
    jround ((0 : ℚ) + (500 - 0) / 4) = 125 ∧
    ("≤ 167" : String) ≠ "≤ 125" := by
  refine ⟨by rw [legend_traffic_eval]; decide, ?_, by decide, by decide,
    by rw [legend_traffic_eval]; decide, ?_, by decide⟩
  · have h : ((0 : ℚ) + (500 - 0) / 4 / 2) / 500 = 1/8 := by norm_num
    rw [h, getGradientColorRGB_eighth]
  · norm_num [jround, jfloor, Rat.floor_def']

/-- C6 (amended). For every title, `min`, `max`, `steps ≥ 2` and unit,
the legend has the given title and exactly `steps` items; item `i`'s
color is the gradient color at the normalized *boundary* position
`i/(steps-1)` (so the labelled bands are the `steps-1` equal subdivisions
of `[min,max]` plus a final open-ended `>` band), with the first label
`≤ round(bound)`, middle labels `start - end` and last label
`> round(start)`, all bounds rounded to integers. -/
theorem createGradientLegend_items (title : String) (mn mx : ℚ) (steps : ℕ)
    (unit : String) (hsteps : 2 ≤ steps) :
    (createGradientLegend title mn mx steps unit).title = title ∧
    (createGradientLegend title mn mx steps unit).items.length = steps ∧
    ∀ i, i < steps →
      (createGradientLegend title mn mx steps unit).items[i]? =
        some (legendItemSpec mn mx steps unit i) := by
  refine ⟨rfl, by simp [createGradientLegend], ?_⟩
  intro i hi
  simp only [createGradientLegend, legendItemSpec, List.getElem?_map, List.getElem?_range hi,
    Option.map_some']
  rcases Nat.lt_or_ge i (steps - 1) with hlt | hge
  · rw [if_pos hlt]
  · have hieq : i = steps - 1 := by omega
    have hne : i ≠ 0 := by omega
    rw [if_neg hne, if_neg hne, if_pos hieq, if_pos hieq]

/-- Witness for C6 at scenario C's input `legend('Traffic', 0, 500, 4)`:
4 items, first label starts with `≤`, last label starts with `>`. -/
theorem createGradientLegend_items_witness :
    2 ≤ 4 ∧
    (createGradientLegend "Traffic" (0 : ℚ) 500 4 "").items.length = 4 ∧
    ((createGradientLegend "Traffic" (0 : ℚ) 500 4 "").items.map LegendItem.label).head? =
      some "≤ 167" ∧
    ("≤ 167" : String).data.head? = some '≤' ∧
    ((createGradientLegend "Traffic" (0 : ℚ) 500 4 "").items.map LegendItem.label).getLast? =
      some "> 500" ∧
    ("> 500" : String).data.head? = some '>' :=
  ⟨by decide,
   (createGradientLegend_items "Traffic" 0 500 4 "" (by decide)).2.1,
   by rw [legend_traffic_eval]; decide,
   by decide,
   by rw [legend_traffic_eval]; decide,
   by decide⟩

theorem clamp_nonneg (q : ℚ) : 0 ≤ jmax 0 (jmin 1 q) := by
  rw [jmax_eq]
  exact le_max_left 0 _

theorem clamp_le_one (q : ℚ) : jmax 0 (jmin 1 q) ≤ 1 := by
  rw [jmax_eq, jmin_eq]
  exact max_le (by norm_num) (min_le_left _ _)

theorem clamp_of_mem {q : ℚ} (h0 : 0 ≤ q) (h1 : q ≤ 1) : jmax 0 (jmin 1 q) = q := by
  rw [jmax_eq, jmin_eq, min_eq_right h1, max_eq_right h0]

theorem stops_getElem? (k : ℕ) (hk : k < 4) :
    GRADIENT_STOPS[k]? = some (gradientStop k) := by
  interval_cases k <;> rfl

theorem gradientStop_in_range (k : ℕ) (hk : k ≤ 3) :
    0 ≤ (gradientStop k).1 ∧ (gradientStop k).1 ≤ 255 ∧
    0 ≤ (gradientStop k).2.1 ∧ (gradientStop k).2.1 ≤ 255 ∧
    0 ≤ (gradientStop k).2.2 ∧ (gradientStop k).2.2 ≤ 255 := by
  interval_cases k <;> exact ⟨by decide, by decide, by decide, by decide, by decide, by decide⟩

theorem gradientSegment_le_two (t : ℚ) : gradientSegment t ≤ 2 := by
  rw [gradientSegment, imin_eq]
  have := min_le_right (jfloor (t * 3)) 2
  omega

/-- `getGradientColorRGB` clamps its argument, so it agrees with itself on
the clamped value. -/
theorem getGradientColorRGB_clamp (q : ℚ) :
    getGradientColorRGB q = getGradientColorRGB (jmax 0 (jmin 1 q)) := by
  have hm : jmax 0 (jmin 1 (jmax 0 (jmin 1 q))) = jmax 0 (jmin 1 q) :=
    clamp_of_mem (clamp_nonneg q) (clamp_le_one q)
  simp only [getGradientColorRGB, hm]

/-- Every output of `getGradientColorRGB` has all channels in `[0,255]`. -/
theorem getGradientColorRGB_in_range (q : ℚ) : colorInRange (getGradientColorRGB q) := by
  rw [getGradientColorRGB_clamp q]
  set t := jmax 0 (jmin 1 q) with ht
  have hmem := channelsWithinStops_of_mem t (clamp_nonneg q) (clamp_le_one q)
  obtain ⟨⟨h1a, h1b⟩, ⟨h2a, h2b⟩, ⟨h3a, h3b⟩⟩ := hmem
  have hseg := gradientSegment_le_two t
  have hr1 := gradientStop_in_range (gradientSegment t) (by omega)
  have hr2 := gradientStop_in_range (gradientSegment t + 1) (by omega)
  refine ⟨?_, ?_, ?_, ?_, ?_, ?_⟩
  · exact le_trans (le_min hr1.1 hr2.1) h1a
  · exact le_trans h1b (max_le hr1.2.1 hr2.2.1)
  · exact le_trans (le_min hr1.2.2.1 hr2.2.2.1) h2a
  · exact le_trans h2b (max_le hr1.2.2.2.1 hr2.2.2.2.1)
  · exact le_trans (le_min hr1.2.2.2.2.1 hr2.2.2.2.2.1) h3a
  · exact le_trans h3b (max_le hr1.2.2.2.2.2 hr2.2.2.2.2.2)

/-- The JS stop lookup at an in-bounds non-negative integer index. -/
theorem stopsAt_intCast (m : ℤ) (h0 : 0 ≤ m) (h4 : m < 4) :
    stopsAt (.num ((m : ℤ) : ℚ)) = some (gradientStop m.toNat) := by
  simp only [stopsAt, Rat.den_intCast, Rat.num_intCast]
  rw [if_pos ⟨trivial, h0⟩]
  exact stops_getElem? m.toNat (by omega)

/-- On a plain (finite) normalized value, the JS-semantics gradient color
never faults and agrees with the rational-arithmetic embedding. -/
theorem getGradientColorJS_num (q : ℚ) (alpha : Option ℚ) :
    getGradientColorJS (.num q) alpha = some (withAlpha alpha (getGradientColorRGB q)) := by
  have h0 : 0 ≤ jmax 0 (jmin 1 q) := clamp_nonneg q
  have h1 : jmax 0 (jmin 1 q) ≤ 1 := clamp_le_one q
  set t' : ℚ := jmax 0 (jmin 1 q) with ht'
  have hn0 : 0 ≤ jfloor (t' * 3) := by
    rw [jfloor_eq]
    exact Int.floor_nonneg.mpr (by nlinarith)
  set n : ℤ := jfloor (t' * 3) with hn
  have hmin : jmin ((n : ℤ) : ℚ) 2 = ((imin n 2 : ℤ) : ℚ) := by
    rw [jmin_eq, imin_eq]
    push_cast
    rfl
  have himin0 : 0 ≤ imin n 2 := by rw [imin_eq]; omega
  have himin2 : imin n 2 ≤ 2 := by rw [imin_eq]; exact min_le_right _ _
  simp only [getGradientColorJS, jsMinNum, jsMaxNum, jsMulNum, jsFloorNum, jsAddOne, ← ht']
  have hlen : ((GRADIENT_STOPS.length : ℚ) - 1) = 3 := by norm_num [GRADIENT_STOPS]
  have h31 : (3 : ℚ) - 1 = 2 := by norm_num
  rw [hlen, h31, ← hn, hmin]
  have hp1 : ((imin n 2 : ℤ) : ℚ) + 1 = ((imin n 2 + 1 : ℤ) : ℚ) := by push_cast; ring
  rw [hp1]
  have hs1 : stopsAt (.num ((imin n 2 : ℤ) : ℚ)) = some (gradientStop (imin n 2).toNat) :=
    stopsAt_intCast _ himin0 (by omega)
  have hs2 : stopsAt (.num ((imin n 2 + 1 : ℤ) : ℚ)) =
      some (gradientStop ((imin n 2).toNat + 1)) := by
    rw [stopsAt_intCast _ (by omega) (by omega)]
    exact congrArg (fun k => some (gradientStop k)) (by omega)
  rw [hs1, hs2]
  have hrhs : getGradientColorRGB q =
      interpolateColor (gradientStop ((imin n 2).toNat)) (gradientStop ((imin n 2).toNat + 1))
        (t' * 3 - ((imin n 2 : ℤ) : ℚ)) := by
    rw [getGradientColorRGB_clamp q, ← ht', getGradientColorRGB_eq t' h0 h1]
    rw [show gradientSegment t' = (imin n 2).toNat by rw [gradientSegment, ← hn]]
  rw [hrhs]

/-- A `NaN` normalized value makes the segment index `NaN`, the stop
lookup `undefined`, and the call faults. -/
theorem getGradientColorJS_nan (alpha : Option ℚ) : getGradientColorJS .nan alpha = none := rfl

/-- A `+Infinity` normalized value is clamped to 1 and yields the last
stop. -/
theorem getGradientColorJS_posInf (alpha : Option ℚ) :
    getGradientColorJS .posInf alpha = some (withAlpha alpha (255, 0, 0)) := by
  have h : getGradientColorJS .posInf alpha = getGradientColorJS (.num 1) alpha := by
    simp only [getGradientColorJS, jsMinNum, jsMaxNum]
    rw [show jmin (1 : ℚ) 1 = 1 from by norm_num [jmin]]
  rw [h, getGradientColorJS_num, getGradientColorRGB_one]

/-- A `-Infinity` normalized value is clamped to 0 and yields the first
stop. -/
theorem getGradientColorJS_negInf (alpha : Option ℚ) :
    getGradientColorJS .negInf alpha = some (withAlpha alpha (0, 200, 0)) := by
  have h : getGradientColorJS .negInf alpha = getGradientColorJS (.num 0) alpha := by
    simp only [getGradientColorJS, jsMinNum, jsMaxNum]
    rw [show jmin (1 : ℚ) 0 = 0 from by norm_num [jmin],
      show jmax (0 : ℚ) 0 = 0 from by norm_num [jmax]]
  rw [h, getGradientColorJS_num, getGradientColorRGB_zero]

/-- C10 counterexample: with `min = max = 0` but `value = 1`, the
division by zero yields `+Infinity`, which the `[0,1]` clamp tames, so
`getValueColor` returns the last stop instead of faulting — the claim
that `min = max` always leaves the function without a well-defined
result is false. -/
theorem getValueColor_min_eq_max_not_always_fault :
    getValueColorJS 1 0 0 none = some (JSColor.rgb (255, 0, 0)) ∧
    getValueColorJS 1 0 0 none ≠ none := by
  have h : getValueColorJS 1 0 0 none = some (JSColor.rgb (255, 0, 0)) := by
    rw [getValueColorJS, show jsDiv ((1 : ℚ) - 0) ((0 : ℚ) - 0) = .posInf from by
      norm_num [jsDiv], getGradientColorJS_posInf]
    rfl
  exact ⟨h, by rw [h]; exact Option.some_ne_none _⟩

/-- C10 (amended). For `min < max` (and any optional alpha),
`getValueColor` is total: the stop lookups are in bounds, and every
channel of the color lies in `[0,255]`. When `min = max`, the division by
zero gives `NaN` only for `value = min`, and only then does the stop
lookup fault; for `value > min` (resp. `value < min`) it gives
`+Infinity` (resp. `-Infinity`), which the clamp maps to 1 (resp. 0), so
the function returns the last (resp. first) stop. -/
theorem getValueColor_totality :
    (∀ (value mn mx : ℚ) (alpha : Option ℚ), mn < mx →
        getValueColorJS value mn mx alpha =
          some (withAlpha alpha (getGradientColorRGB ((value - mn) / (mx - mn)))) ∧
        colorInRange (getGradientColorRGB ((value - mn) / (mx - mn)))) ∧
    (∀ (mn : ℚ) (alpha : Option ℚ), getValueColorJS mn mn mn alpha = none) ∧
    (∀ (value mn : ℚ) (alpha : Option ℚ), mn < value →
        getValueColorJS value mn mn alpha = some (withAlpha alpha (255, 0, 0))) ∧
    (∀ (value mn : ℚ) (alpha : Option ℚ), value < mn →
        getValueColorJS value mn mn alpha = some (withAlpha alpha (0, 200, 0))) := by
  refine ⟨fun value mn mx alpha h => ⟨?_, getGradientColorRGB_in_range _⟩,
    fun mn alpha => ?_, fun value mn alpha h => ?_, fun value mn alpha h => ?_⟩
  · rw [getValueColorJS, jsDiv, if_neg (sub_ne_zero.mpr h.ne'), getGradientColorJS_num]
  · rw [getValueColorJS, sub_self, jsDiv, if_pos rfl, if_pos rfl, getGradientColorJS_nan]
  · rw [getValueColorJS, sub_self, jsDiv, if_pos rfl, if_neg (sub_ne_zero.mpr h.ne'),
      if_pos (sub_pos.mpr h), getGradientColorJS_posInf]
  · rw [getValueColorJS, sub_self, jsDiv, if_pos rfl, if_neg (sub_ne_zero.mpr h.ne),
      if_neg (by linarith), getGradientColorJS_negInf]

theorem parseFloat_four_35 : parseFloat "4.35" = .num (87/20) := by
  rw [parseFloat, show "4.35".data = ['4', '.', '3', '5'] from by decide]
  norm_num [parseFloatAux, digitsVal,
    show List.dropWhile isSpaceChar ['4', '.', '3', '5'] = ['4', '.', '3', '5'] from by decide,
    show List.dropWhile Char.isDigit ['4', '.', '3', '5'] = ['.', '3', '5'] from by decide,
    show List.takeWhile Char.isDigit ['4', '.', '3', '5'] = ['4'] from by decide,
    show List.takeWhile Char.isDigit ['3', '5'] = ['3', '5'] from by decide,
    show List.dropWhile Char.isDigit ['3', '5'] = ([] : List Char) from by decide,
    show (('4' : Char) = 'I') = False from eq_false (by decide),
    show (('4' : Char) = '-') = False from eq_false (by decide),
    show (('4' : Char) = '+') = False from eq_false (by decide),
    show (('4' : Char).isDigit = false) = False from eq_false (by decide),
    show parseExp [] = 0 from by decide,
    show ('4' : Char).toNat - 48 = 4 from by decide,
    show ('3' : Char).toNat - 48 = 3 from by decide,
    show ('5' : Char).toNat - 48 = 5 from by decide]

theorem parseFloat_fifty_85 : parseFloat "50.85" = .num (1017/20) := by
  rw [parseFloat, show "50.85".data = ['5', '0', '.', '8', '5'] from by decide]
  norm_num [parseFloatAux, digitsVal,
    show List.dropWhile isSpaceChar ['5', '0', '.', '8', '5'] = ['5', '0', '.', '8', '5'] from
      by decide,
    show List.dropWhile Char.isDigit ['5', '0', '.', '8', '5'] = ['.', '8', '5'] from by decide,
    show List.takeWhile Char.isDigit ['5', '0', '.', '8', '5'] = ['5', '0'] from by decide,
    show List.takeWhile Char.isDigit ['8', '5'] = ['8', '5'] from by decide,
    show List.dropWhile Char.isDigit ['8', '5'] = ([] : List Char) from by decide,
    show (('5' : Char) = 'I') = False from eq_false (by decide),
    show (('5' : Char) = '-') = False from eq_false (by decide),
    show (('5' : Char) = '+') = False from eq_false (by decide),
    show (('5' : Char).isDigit = false) = False from eq_false (by decide),
    show parseExp [] = 0 from by decide,
    show ('5' : Char).toNat - 48 = 5 from by decide,
    show ('0' : Char).toNat - 48 = 0 from by decide,
    show ('8' : Char).toNat - 48 = 8 from by decide]

/-- End-to-end scenario A: string coordinates `"4.35"`, `"50.85"` are
parsed to the numbers 4.35 and 50.85. -/
theorem normalizeGeoJSON_scenarioA :
    normalizeGeoJSON fcA =
      ⟨"FeatureCollection", [⟨[], ⟨"Point",
        [CoordVal.num (.num (87/20)), CoordVal.num (.num (1017/20))]⟩⟩]⟩ := by
  simp [normalizeGeoJSON, normalizeFeature, normalizeCoord, fcA,
    parseFloat_four_35, parseFloat_fifty_85]

theorem normalizeCoord_idem (c : CoordVal) :
    normalizeCoord (normalizeCoord c) = normalizeCoord c := by
  cases c <;> rfl

theorem normalizeFeature_idem (f : Feature) :
    normalizeFeature (normalizeFeature f) = normalizeFeature f := by
  simp [normalizeFeature, List.map_map, Function.comp, normalizeCoord_idem]

/-- C3 counterexample: normalizing a coordinate string that cannot be
parsed as a number (`"abc"`) yields `NaN` — a number-typed value that is
not a finite number — so not every coordinate element of the normalized
result is a finite number. -/
theorem normalizeGeoJSON_unparseable_not_finite :
    normalizeGeoJSON fcBad =
      ⟨"FeatureCollection", [⟨[], ⟨"Point", [CoordVal.num .nan]⟩⟩]⟩ ∧
    isFiniteNumCoord (CoordVal.num .nan) = false := by
  exact ⟨by decide, rfl⟩

/-- C3 (amended). After normalization no coordinate element is a string:
every string input becomes a number via `parseFloat` (possibly `NaN` or
`±Infinity` when the string does not parse as a finite number), and every
non-string input passes through unchanged (so non-numeric non-string
inputs remain non-numeric). -/
theorem normalizeGeoJSON_no_string_coordinates (fc : GeoJSONFeatureCollection) :
    (∀ f ∈ (normalizeGeoJSON fc).features, ∀ c ∈ f.geometry.coordinates,
      isStringCoord c = false) ∧
    (∀ s, normalizeCoord (.str s) = .num (parseFloat s)) ∧
    (∀ n, normalizeCoord (.num n) = .num n) ∧
    (∀ tag, normalizeCoord (.other tag) = .other tag) := by
  refine ⟨?_, fun s => rfl, fun n => rfl, fun tag => rfl⟩
  intro f hf c hc
  simp only [normalizeGeoJSON] at hf
  obtain ⟨f0, _, rfl⟩ := List.mem_map.mp hf
  simp only [normalizeFeature] at hc
  obtain ⟨c0, _, rfl⟩ := List.mem_map.mp hc
  cases c0 <;> rfl

/-- Witness for C3's amended claim on the concrete collection `fcBad`. -/
theorem normalizeGeoJSON_no_string_coordinates_witness :
    (⟨[], ⟨"Point", [CoordVal.num .nan]⟩⟩ : Feature) ∈ (normalizeGeoJSON fcBad).features ∧
    CoordVal.num .nan ∈ (⟨[], ⟨"Point", [CoordVal.num .nan]⟩⟩ : Feature).geometry.coordinates ∧
    isStringCoord (CoordVal.num .nan) = false :=
  ⟨by decide, by decide,
   (normalizeGeoJSON_no_string_coordinates fcBad).1
     (⟨[], ⟨"Point", [CoordVal.num .nan]⟩⟩ : Feature) (by decide)
     (CoordVal.num .nan) (by decide)⟩

/-- C4. The normalizer is idempotent and structure-preserving: normalizing
twice equals normalizing once; the feature count, order, properties and
geometry types are unchanged; each feature's coordinates are exactly the
input coordinates elementwise coerced, where strings are parsed with
`parseFloat` and numbers pass through unchanged. -/
theorem normalizeGeoJSON_idempotent_structure_preserving :
    (∀ fc, normalizeGeoJSON (normalizeGeoJSON fc) = normalizeGeoJSON fc) ∧
    (∀ fc : GeoJSONFeatureCollection,
      (normalizeGeoJSON fc).ftype = fc.ftype ∧
      (normalizeGeoJSON fc).features.length = fc.features.length ∧
      ∀ i : ℕ,
        ((normalizeGeoJSON fc).features[i]?).map Feature.properties =
          (fc.features[i]?).map Feature.properties ∧
        ((normalizeGeoJSON fc).features[i]?).map (fun f => f.geometry.gtype) =
          (fc.features[i]?).map (fun f => f.geometry.gtype) ∧
        ((normalizeGeoJSON fc).features[i]?).map (fun f => f.geometry.coordinates) =
          (fc.features[i]?).map (fun f => f.geometry.coordinates.map normalizeCoord)) ∧
    (∀ s, normalizeCoord (.str s) = .num (parseFloat s)) ∧
    (∀ n, normalizeCoord (.num n) = .num n) := by
  refine ⟨?_, ?_, fun s => rfl, fun n => rfl⟩
  · intro fc
    simp [normalizeGeoJSON, List.map_map, Function.comp, normalizeFeature_idem]
  · intro fc
    refine ⟨rfl, by simp [normalizeGeoJSON], fun i => ⟨?_, ?_, ?_⟩⟩ <;>
      · simp only [normalizeGeoJSON, List.getElem?_map]
        cases fc.features[i]? <;> simp [normalizeFeature]

/-- Witness for C4 at scenario A's concrete collection `fcA`. -/
theorem normalizeGeoJSON_idempotent_witness :
    normalizeGeoJSON (normalizeGeoJSON fcA) = normalizeGeoJSON fcA ∧
    normalizeGeoJSON fcA =
      ⟨"FeatureCollection", [⟨[], ⟨"Point",
        [CoordVal.num (.num (87/20)), CoordVal.num (.num (1017/20))]⟩⟩]⟩ :=
  ⟨normalizeGeoJSON_idempotent_structure_preserving.1 fcA, normalizeGeoJSON_scenarioA⟩

/-- Witness for C10's amended claim at concrete inputs. -/
theorem getValueColor_totality_witness :
    ((0 : ℚ) < 500 ∧ (0 : ℚ) < 1 ∧ (-1 : ℚ) < 0) ∧
    (getValueColorJS 250 0 500 (some 220) =
        some (withAlpha (some 220) (getGradientColorRGB ((250 - 0) / (500 - 0)))) ∧
      colorInRange (getGradientColorRGB ((250 - 0) / (500 - 0)))) ∧
    getValueColorJS 0 0 0 none = none ∧
    getValueColorJS 1 0 0 (some 220) = some (withAlpha (some 220) (255, 0, 0)) ∧
    getValueColorJS (-1) 0 0 none = some (withAlpha none (0, 200, 0)) :=
  ⟨⟨by norm_num, by norm_num, by norm_num⟩,
   getValueColor_totality.1 250 0 500 (some 220) (by norm_num),
   getValueColor_totality.2.1 0 none,
   getValueColor_totality.2.2.1 1 0 (some 220) (by norm_num),
   getValueColor_totality.2.2.2 (-1) 0 none (by norm_num)⟩

/-- C2 counterexample: a bare array of features passes through
`fetchMobilityData`'s normalization unchanged — it is not wrapped as a
FeatureCollection — and a response matching none of the three shapes is
returned unchanged rather than raising any `MalformedResponseError`
(the source has no failure path in this step). -/
theorem mobility_bare_array_not_wrapped :
    normalizeMobilityResponse (.bareArray [⟨[], ⟨"Point", []⟩⟩]) =
      .bareArray [⟨[], ⟨"Point", []⟩⟩] ∧
    normalizeMobilityResponse (.bareArray [⟨[], ⟨"Point", []⟩⟩]) ≠
      .collection ⟨"FeatureCollection", [⟨[], ⟨"Point", []⟩⟩]⟩ ∧
    normalizeMobilityResponse (.other "unrecognized-shape") = .other "unrecognized-shape" :=
  ⟨rfl, by decide, rfl⟩

/-- C2 (amended). `fetchMobilityData` unwraps the vendor envelope
`{status_code, message, type, features}` to
`{type: 'FeatureCollection', features}` — the envelope fields stripped —
and passes every response without a `status_code` field (already a
FeatureCollection, a bare array, or anything else) through unchanged,
raising no error; separately, `VehicleService.fetchVehiclePositions` maps
a bare array to itself, an object with a `features` field to
`features || []`, and any other shape to `[]`. -/
theorem feedClient_normalization :
    (∀ (sc : ℤ) (msg rtype : String) (fs : List Feature),
      normalizeMobilityResponse (.envelope sc msg rtype fs) =
        .collection ⟨"FeatureCollection", fs⟩) ∧
    (∀ r, hasStatusCode r = false → normalizeMobilityResponse r = r) ∧
    (∀ fs, extractVehicleData (.arr fs) = fs) ∧
    (∀ vt fs, extractVehicleData (.coll vt (some fs)) = fs) ∧
    (∀ vt, extractVehicleData (.coll vt none) = []) ∧
    (∀ tag, extractVehicleData (.other tag) = []) := by
  refine ⟨fun sc msg rtype fs => rfl, ?_, fun fs => rfl, fun vt fs => rfl,
    fun vt => rfl, fun tag => rfl⟩
  intro r h
  cases r with
  | envelope sc msg rtype fs => simp [hasStatusCode] at h
  | collection fc => rfl
  | bareArray fs => rfl
  | other tag => rfl

/-- Witness for C2 at scenario B's envelope and a bare array. -/
theorem feedClient_normalization_witness :
    hasStatusCode (.bareArray []) = false ∧
    normalizeMobilityResponse (MobilityResponse.bareArray []) = .bareArray [] ∧
    normalizeMobilityResponse (.envelope 200 "ok" "FeatureCollection" [⟨[], ⟨"Point", []⟩⟩]) =
      .collection ⟨"FeatureCollection", [⟨[], ⟨"Point", []⟩⟩]⟩ :=
  ⟨by decide, feedClient_normalization.2.1 _ (by decide),
   feedClient_normalization.1 200 "ok" "FeatureCollection" [⟨[], ⟨"Point", []⟩⟩]⟩

theorem fetchStart_pollRef (s : ViewerState) : (fetchStart s).pollRef = s.pollRef := by
  cases hd : s.activeDataset with
  | none => simp [fetchStart, hd]
  | some ds => simp only [fetchStart, hd]; split <;> rfl

theorem fetchStart_liveTimers (s : ViewerState) : (fetchStart s).liveTimers = s.liveTimers := by
  cases hd : s.activeDataset with
  | none => simp [fetchStart, hd]
  | some ds => simp only [fetchStart, hd]; split <;> rfl

theorem fetchStart_nextTimer (s : ViewerState) : (fetchStart s).nextTimer = s.nextTimer := by
  cases hd : s.activeDataset with
  | none => simp [fetchStart, hd]
  | some ds => simp only [fetchStart, hd]; split <;> rfl

theorem fetchStart_activeDataset (s : ViewerState) :
    (fetchStart s).activeDataset = s.activeDataset := by
  cases hd : s.activeDataset with
  | none => simp [fetchStart, hd]
  | some ds => simp only [fetchStart, hd]; split <;> rfl

theorem fetchResolve_pollRef (s : ViewerState) (fid : ℕ) (out : FetchOutcome) :
    (fetchResolve s fid out).pollRef = s.pollRef := by
  cases hl : s.pending.lookup fid <;> cases out <;> simp [fetchResolve, hl, fetchBody]

theorem fetchResolve_liveTimers (s : ViewerState) (fid : ℕ) (out : FetchOutcome) :
    (fetchResolve s fid out).liveTimers = s.liveTimers := by
  cases hl : s.pending.lookup fid <;> cases out <;> simp [fetchResolve, hl, fetchBody]

theorem fetchResolve_activeDataset (s : ViewerState) (fid : ℕ) (out : FetchOutcome) :
    (fetchResolve s fid out).activeDataset = s.activeDataset := by
  cases hl : s.pending.lookup fid <;> cases out <;> simp [fetchResolve, hl, fetchBody]

theorem pollInv_init : PollInv initViewer := rfl

theorem erase_self_of_pollInv {s : ViewerState} (h : PollInv s) {p : ℕ}
    (hp : s.pollRef = some p) : s.liveTimers.erase p = [] := by
  unfold PollInv at h
  rw [hp] at h
  rcases h with h | h <;> simp [h]

theorem liveTimers_empty_of_pollRef_none {s : ViewerState} (h : PollInv s)
    (hp : s.pollRef = none) : s.liveTimers = [] := by
  unfold PollInv at h
  rwa [hp] at h

/-- Every event preserves the single-live-handle invariant: the watch
handler and `onUnmounted` always clear the previous interval before (or
without) creating a new one, and fetch activity never touches timers. -/
theorem pollInv_step {s : ViewerState} (e : Event) (h : PollInv s) : PollInv (step s e) := by
  cases e with
  | switchDataset d =>
    cases d with
    | none =>
      cases hp : s.pollRef with
      | none =>
        have hl := liveTimers_empty_of_pollRef_none h hp
        simp [step, hp, PollInv, hl]
      | some p =>
        have he := erase_self_of_pollInv h hp
        simp [step, hp, PollInv, he]
    | some ds =>
      cases hp : s.pollRef with
      | none =>
        have hl := liveTimers_empty_of_pollRef_none h hp
        simp [step, hp, PollInv, hl, fetchStart_pollRef, fetchStart_liveTimers,
          fetchStart_nextTimer]
      | some p =>
        have he := erase_self_of_pollInv h hp
        simp [step, hp, PollInv, he, fetchStart_pollRef, fetchStart_liveTimers,
          fetchStart_nextTimer]
  | timerTick t =>
    unfold PollInv at h ⊢
    by_cases ht : t ∈ s.liveTimers
    · simp only [step, if_pos ht, fetchStart_pollRef, fetchStart_liveTimers]
      exact h
    · simp only [step, if_neg ht]
      exact h
  | resolve fid out =>
    unfold PollInv at h ⊢
    simp only [step]
    rw [fetchResolve_pollRef, fetchResolve_liveTimers]
    exact h
  | unmount =>
    cases hp : s.pollRef with
    | none =>
      have hl := liveTimers_empty_of_pollRef_none h hp
      simp [step, hp, PollInv, hl]
    | some p =>
      have he := erase_self_of_pollInv h hp
      simp [step, hp, PollInv, he]

/-- The invariant holds in every reachable state. -/
theorem pollInv_run (evs : List Event) : PollInv (run evs) := by
  suffices h : ∀ s, PollInv s → PollInv (evs.foldl step s) from h _ pollInv_init
  induction evs with
  | nil => exact fun s hs => hs
  | cons e es ih => exact fun s hs => ih _ (pollInv_step e hs)

theorem length_le_one_of_pollInv {s : ViewerState} (h : PollInv s) :
    s.liveTimers.length ≤ 1 := by
  unfold PollInv at h
  cases hp : s.pollRef <;> rw [hp] at h
  · simp [h]
  · rcases h with h | h <;> simp [h]

theorem switch_some_one_live {s : ViewerState} (h : PollInv s) (ds : String) :
    (step s (.switchDataset (some ds))).liveTimers.length = 1 := by
  cases hp : s.pollRef with
  | none =>
    have hl := liveTimers_empty_of_pollRef_none h hp
    simp [step, hp, hl, fetchStart_liveTimers]
  | some p =>
    have he := erase_self_of_pollInv h hp
    simp [step, hp, he, fetchStart_liveTimers]

theorem unmount_no_live {s : ViewerState} (h : PollInv s) :
    (step s .unmount).liveTimers = [] := by
  cases hp : s.pollRef with
  | none =>
    have hl := liveTimers_empty_of_pollRef_none h hp
    simp [step, hp, hl]
  | some p =>
    have he := erase_self_of_pollInv h hp
    simp [step, hp, he]

/-- C8. In every reachable state of the polling lifecycle at most one
interval timer is live (the previous one is always cleared before a new
one is scheduled); switching to a dataset leaves exactly one live
handle, and teardown leaves none. -/
theorem atMostOnePollHandle :
    (∀ evs : List Event, (run evs).liveTimers.length ≤ 1) ∧
    (∀ (evs : List Event) (ds : String),
      (step (run evs) (.switchDataset (some ds))).liveTimers.length = 1) ∧
    (∀ evs : List Event, (step (run evs) .unmount).liveTimers = []) :=
  ⟨fun evs => length_le_one_of_pollInv (pollInv_run evs),
   fun evs ds => switch_some_one_live (pollInv_run evs) ds,
   fun evs => unmount_no_live (pollInv_run evs)⟩

/-- C1: evaluation of the code on the race trace. After switching from
`stib` to `sncb`, `sncb`'s first fetch resolves and is displayed; then
the fetch started for `stib` — never cancelled or discarded — resolves
and overwrites `geojsonData` with `stib`'s data while the active dataset
and style context are `sncb`'s: the displayed FeatureCollection no longer
corresponds to the active dataset, even though exactly one poll handle is
live. -/
theorem staleFetch_overwrites_displayed_data :
    (run raceTrace).activeDataset = some "sncb" ∧
    (run raceTrace).styleKey = some "sncb" ∧
    (run raceTrace).displayed = some ("stib", ⟨"FeatureCollection", []⟩) ∧
    (run raceTrace).liveTimers.length = 1 := by
  refine ⟨?_, ?_, ?_, ?_⟩ <;> decide

/-- C9. Every error in a poll cycle is caught at the `fetchData`
boundary and converted to the displayable string
`'Failed to fetch realtime data'`: a rejected fetch promise sets the
error and clears `loading` while leaving the poll handle and the live
timers untouched; an unknown-source error thrown at the start of a cycle
is caught the same way; and after an error, a tick of a live timer still
attempts a fetch (the in-flight count grows by one). -/
theorem pollCycle_errors_caught (s : ViewerState) (fid : ℕ) (reason ds : String)
    (hpend : s.pending.lookup fid = some ds) :
    (fetchResolve s fid (.failure reason)).errorMsg = some "Failed to fetch realtime data" ∧
    (fetchResolve s fid (.failure reason)).loading = false ∧
    (fetchResolve s fid (.failure reason)).pollRef = s.pollRef ∧
    (fetchResolve s fid (.failure reason)).liveTimers = s.liveTimers ∧
    (∀ ds2 : String, s.activeDataset = some ds2 → getSourceType ds2 = .unknown →
      (fetchStart s).errorMsg = some "Failed to fetch realtime data" ∧
      (fetchStart s).loading = false ∧
      (fetchStart s).liveTimers = s.liveTimers ∧ (fetchStart s).pollRef = s.pollRef) ∧
    (∀ (t : ℕ) (ds2 : String),
      t ∈ (fetchResolve s fid (.failure reason)).liveTimers →
      (fetchResolve s fid (.failure reason)).activeDataset = some ds2 →
      getSourceType ds2 ≠ .unknown →
      (step (fetchResolve s fid (.failure reason)) (.timerTick t)).pending.length =
        (fetchResolve s fid (.failure reason)).pending.length + 1) := by
  refine ⟨?_, ?_, fetchResolve_pollRef s fid _, fetchResolve_liveTimers s fid _, ?_, ?_⟩
  · simp [fetchResolve, hpend, fetchBody]
  · simp [fetchResolve, hpend, fetchBody]
  · intro ds2 hds hunk
    refine ⟨?_, ?_, ?_, ?_⟩ <;> simp [fetchStart, hds, hunk]
  · intro t ds2 ht hds hunk
    simp only [step, if_pos ht]
    set s' := fetchResolve s fid (.failure reason) with hs'
    simp only [fetchStart, hds]
    rw [if_neg hunk]
    simp

/-- Witness for C9 after activating `stib` and failing its first fetch. -/
theorem pollCycle_errors_caught_witness :
    (run [.switchDataset (some "stib")]).pending.lookup 0 = some "stib" ∧
    (fetchResolve (run [.switchDataset (some "stib")]) 0
        (.failure "HTTPError")).errorMsg = some "Failed to fetch realtime data" :=
  ⟨by decide,
   (pollCycle_errors_caught (run [.switchDataset (some "stib")]) 0 "HTTPError" "stib"
     (by decide)).1⟩

end FariTwin
